import Mathlib

/-!
Shallow embedding of the quantum-chess signaling server (src/server/main.py).

The server keeps an in-memory dict `rooms` from room-id strings to `Room`
objects.  Room ids are modelled as lists of characters (`RoomId`), Python
`dict` as an association list with first-occurrence semantics, timestamps as
integers (seconds), and websocket connection handles as natural numbers.
Python's `^` on unbounded ints is two's-complement xor, which is exactly
`Int.xor`.  The async endpoints are modelled as pure state-transition
functions: the HTTP handlers `create_room` and `join_room`, and the
websocket endpoint split into its three phases — connection/slot
assignment (`websocket_connect`), one iteration of the relay loop
(`relay_step`) and the `WebSocketDisconnect` handler
(`websocket_disconnect`).  Messages the server sends are recorded as
`(handle, ServerMsg)` pairs in the order the code sends them.
-/

namespace QC

/-- Room identifiers, modelled as lists of characters. -/
abbrev RoomId := List Char

/-- Python `str.upper()` on the URL-safe-token alphabet: character-wise
upper-casing (all characters involved are ASCII). -/
def upperId (s : RoomId) : RoomId := s.map Char.toUpper

/-- Embeds `class Room` (main.py lines 23-50): per-game state.  `host_ws` and
`guest_ws` hold the bound connection handles, `none` when the slot is
unbound, exactly as the Python fields hold `None`. -/
structure Room where
  room_id : RoomId
  host_seed : Int
  max_superpositions : Int
  guest_seed : Option Int
  host_ws : Option Nat
  guest_ws : Option Nat
  created_at : Int
deriving DecidableEq

/-- Embeds `Room.__init__`: `guest_seed`, `host_ws`, `guest_ws` start as `None`;
`created_at` records the creation time. -/
def Room.make (room_id : RoomId) (host_seed : Int) (max_superpositions : Int)
    (created_at : Int) : Room :=
  { room_id := room_id, host_seed := host_seed,
    max_superpositions := max_superpositions, guest_seed := none,
    host_ws := none, guest_ws := none, created_at := created_at }

/-- Embeds `Room.is_full` (lines 34-36): both connection slots are bound. -/
def Room.is_full (room : Room) : Bool :=
  room.host_ws.isSome && room.guest_ws.isSome

/-- Embeds `Room.game_seed` (lines 38-43): `None` until `guest_seed` is set,
otherwise the xor of the two seeds. -/
def Room.game_seed (room : Room) : Option Int :=
  match room.guest_seed with
  | none => none
  | some g => some (Int.xor room.host_seed g)

/-- Embeds `Room.get_other_ws` (lines 45-50): identity comparison of the handle
against each slot; `ws == self.host_ws` is false when `host_ws` is `None`. -/
def Room.get_other_ws (room : Room) (ws : Nat) : Option Nat :=
  if room.host_ws = some ws then room.guest_ws
  else if room.guest_ws = some ws then room.host_ws
  else none

/-- The module-level `rooms: Dict[str, Room]` store, as an association list
whose keys are unique in every reachable state. -/
abbrev Registry := List (RoomId × Room)

/-- Python `rooms.get(k)`: first entry with the key, else `None`. -/
def dictGet : Registry → RoomId → Option Room
  | [], _ => none
  | (k2, r) :: rest, k => if k2 = k then some r else dictGet rest k

/-- Python `rooms[k] = v`: replace the entry when the key is present,
append otherwise. -/
def dictSet : Registry → RoomId → Room → Registry
  | [], k, v => [(k, v)]
  | (k2, r) :: rest, k, v =>
    if k2 = k then (k, v) :: rest else (k2, r) :: dictSet rest k v

/-- In-place mutation of the `Room` object aliased from the registry: the
registry entry changes exactly when the key is present (the handler holds a
reference to the same object the dict holds); mutating an object that is no
longer in the dict leaves the dict unchanged. -/
def dictUpdate : Registry → RoomId → Room → Registry
  | [], _, _ => []
  | (k2, r) :: rest, k, v =>
    if k2 = k then (k, v) :: rest else (k2, r) :: dictUpdate rest k v

/-- Python `del rooms[k]`: removes the entry, raising `KeyError` when the
key is absent. -/
def dictDel : Registry → RoomId → Except String Registry
  | [], _ => .error "KeyError"
  | (k2, r) :: rest, k =>
    if k2 = k then .ok rest
    else (dictDel rest k).map (fun rest2 => (k2, r) :: rest2)

/-- Embeds `cleanup_old_rooms` (lines 81-86): delete every room whose `created_at`
precedes `now - 1h` (3600 seconds). -/
def cleanup_old_rooms (rooms : Registry) (now : Int) : Registry :=
  rooms.filter (fun p => !(decide (p.2.created_at < now - 3600)))

/-- Embeds `CreateRoomResponse` (lines 58-61). -/
structure CreateRoomResponse where
  room_id : RoomId
  player_color : String
  max_superpositions : Int
deriving DecidableEq

/-- Embeds `JoinRoomResponse` (lines 69-73). -/
structure JoinRoomResponse where
  room_id : RoomId
  player_color : String
  game_seed : Int
  max_superpositions : Int
deriving DecidableEq

/-- The two `HTTPException`s `join_room` raises: 404 "Room not found" and
400 "Room is full". -/
inductive ApiError where
  | notFound
  | roomFull
deriving DecidableEq

/-- Embeds `create_room` (lines 138-155): runs `cleanup_old_rooms`, clamps
`maxSuperpositions` into [1,5], stores a fresh `Room` under `room_id` and
answers with color "white".  `room_id` stands for the result of the
`generate_room_id` collision-retry loop, which by construction is not a key
of the cleaned registry. -/
def create_room (rooms : Registry) (now : Int) (seed : Int)
    (maxSuperpositions : Int) (room_id : RoomId) :
    Registry × CreateRoomResponse :=
  let cleaned := cleanup_old_rooms rooms now
  let max_sup := max 1 (min 5 maxSuperpositions)
  (dictSet cleaned room_id (Room.make room_id seed max_sup now),
   { room_id := room_id, player_color := "white",
     max_superpositions := max_sup })

/-- Embeds `join_room` (lines 158-176): case-insensitive lookup; 404 when absent;
400 when `room.is_full`; otherwise records `guest_seed` and answers with
color "black" and `room.game_seed or 0` (the Python `or 0` yields 0 exactly
when `game_seed` is `None` or 0, which coincides with `getD 0` here). -/
def join_room (rooms : Registry) (room_id : RoomId) (seed : Int) :
    Except ApiError (Registry × JoinRoomResponse) :=
  match dictGet rooms (upperId room_id) with
  | none => .error ApiError.notFound
  | some room =>
    if room.is_full then .error ApiError.roomFull
    else
      let room2 := { room with guest_seed := some seed }
      .ok (dictUpdate rooms (upperId room_id) room2,
           { room_id := room2.room_id, player_color := "black",
             game_seed := (Room.game_seed room2).getD 0,
             max_superpositions := room2.max_superpositions })

/-- The JSON messages the websocket endpoint sends. -/
inductive ServerMsg where
  | connected (role : String) (game_seed : Option Int)
  | peer_joined (game_seed : Option Int)
  | peer_disconnected
  | relayed (data : String)
deriving DecidableEq

/-- Outcome of the connection phase of `websocket_endpoint`. -/
structure WsConnectResult where
  accepted : Bool
  closeCode : Option Nat
  role : Option String
  sends : List (Nat × ServerMsg)
deriving DecidableEq

/-- Embeds `websocket_endpoint` lines 179-215, up to the relay loop: upper-case the
id; close with 4004 before accepting when the room is absent; otherwise
accept and assign first-available-wins — host slot if unbound, else guest
slot (pushing `peer_joined` with the current `game_seed` to the bound host),
else close with 4001; a bound connection is sent its `connected`
confirmation. -/
def websocket_connect (rooms : Registry) (room_id0 : RoomId) (ws : Nat) :
    Registry × WsConnectResult :=
  let room_id := upperId room_id0
  match dictGet rooms room_id with
  | none =>
    (rooms, { accepted := false, closeCode := some 4004, role := none,
              sends := [] })
  | some room =>
    if room.host_ws = none then
      let room2 := { room with host_ws := some ws }
      (dictUpdate rooms room_id room2,
       { accepted := true, closeCode := none, role := some "host",
         sends := [(ws, ServerMsg.connected "host" room2.game_seed)] })
    else if room.guest_ws = none then
      let room2 := { room with guest_ws := some ws }
      let joined :=
        match room2.host_ws with
        | some hw => [(hw, ServerMsg.peer_joined room2.game_seed)]
        | none => []
      (dictUpdate rooms room_id room2,
       { accepted := true, closeCode := none, role := some "guest",
         sends := joined ++ [(ws, ServerMsg.connected "guest" room2.game_seed)] })
    else
      (rooms, { accepted := true, closeCode := some 4001, role := none,
                sends := [] })

/-- One iteration of the relay loop (lines 217-224): forward the inbound
payload to `get_other_ws` when that is bound, silently drop otherwise. -/
def relay_step (room : Room) (ws : Nat) (data : String) :
    List (Nat × ServerMsg) :=
  match room.get_other_ws ws with
  | some other => [(other, ServerMsg.relayed data)]
  | none => []

/-- The `WebSocketDisconnect` handler (lines 226-243): unbind the slot the
handle was bound to, then call `get_other_ws` on the already-mutated room
and send `peer_disconnected` to its result if any (delivery failure is
swallowed, so the send list records attempts), and finally
`del rooms[room_id]` when both slots are unbound — which raises `KeyError`
when the id is no longer a key.  `room` is the handler's reference to the
object it bound at connect time; `room_id` is already upper-cased. -/
def websocket_disconnect (rooms : Registry) (room_id : RoomId) (room : Room)
    (ws : Nat) : Except String (Registry × List (Nat × ServerMsg)) :=
  let room2 :=
    if room.host_ws = some ws then { room with host_ws := none }
    else if room.guest_ws = some ws then { room with guest_ws := none }
    else room
  let rooms2 := dictUpdate rooms room_id room2
  let sends :=
    match room2.get_other_ws ws with
    | some other => [(other, ServerMsg.peer_disconnected)]
    | none => []
  if room2.host_ws = none ∧ room2.guest_ws = none then
    (dictDel rooms2 room_id).map (fun rooms3 => (rooms3, sends))
  else
    .ok (rooms2, sends)

/-- The alphabet of Python `secrets.token_urlsafe` output
(base64url: letters, digits, `-` and `_`). -/
def urlsafeAlphabet : List Char :=
  "ABCDEFGHIJKLMNOPQRSTUVWXYZabcdefghijklmnopqrstuvwxyz0123456789-_".toList

/-- Embeds `generate_room_id` (lines 76-78): `secrets.token_urlsafe(6)[:8].upper()`,
as a function of the random token (a string over `urlsafeAlphabet`). -/
def generate_room_id (token : List Char) : RoomId :=
  (token.take 8).map Char.toUpper

/-! ### Helper lemmas about the registry embedding -/

/-- Looking up the key just stored finds the stored room. -/
theorem dictGet_dictSet_self (rooms : Registry) (k : RoomId) (v : Room) :
    dictGet (dictSet rooms k v) k = some v := by
  induction rooms with
  | nil => simp [dictSet, dictGet]
  | cons p rest ih =>
    obtain ⟨k2, r⟩ := p
    by_cases h : k2 = k
    · simp [dictSet, dictGet, h]
    · simp [dictSet, dictGet, h, ih]

/-- Storing under one key leaves lookups of other keys unchanged. -/
theorem dictGet_dictSet_ne (rooms : Registry) (j k : RoomId) (v : Room)
    (h : j ≠ k) : dictGet (dictSet rooms j v) k = dictGet rooms k := by
  induction rooms with
  | nil => simp [dictSet, dictGet, h]
  | cons p rest ih =>
    obtain ⟨k2, r⟩ := p
    by_cases h2 : k2 = j
    · subst h2
      simp [dictSet, dictGet, h]
    · simp only [dictSet, if_neg h2]
      by_cases h3 : k2 = k
      · simp [dictGet, h3]
      · simp [dictGet, h3, ih]

/-- Mutating the room object aliased under a present key is seen by lookup. -/
theorem dictGet_dictUpdate_self (rooms : Registry) (k : RoomId) (r v : Room)
    (hget : dictGet rooms k = some r) :
    dictGet (dictUpdate rooms k v) k = some v := by
  induction rooms with
  | nil => simp [dictGet] at hget
  | cons p rest ih =>
    obtain ⟨k2, r2⟩ := p
    by_cases h : k2 = k
    · simp [dictUpdate, dictGet, h]
    · simp only [dictGet, if_neg h] at hget
      simp [dictUpdate, dictGet, h, ih hget]

/-- Mutating a room object whose key is absent does not change the dict. -/
theorem dictUpdate_absent (rooms : Registry) (k : RoomId) (v : Room)
    (hget : dictGet rooms k = none) : dictUpdate rooms k v = rooms := by
  induction rooms with
  | nil => rfl
  | cons p rest ih =>
    obtain ⟨k2, r2⟩ := p
    by_cases h : k2 = k
    · simp [dictGet, h] at hget
    · simp only [dictGet, if_neg h] at hget
      simp [dictUpdate, h, ih hget]

/-- In-place update keeps the key sequence of the dict. -/
theorem map_fst_dictUpdate (rooms : Registry) (k : RoomId) (v : Room) :
    (dictUpdate rooms k v).map Prod.fst = rooms.map Prod.fst := by
  induction rooms with
  | nil => rfl
  | cons p rest ih =>
    obtain ⟨k2, r2⟩ := p
    by_cases h : k2 = k
    · subst h
      simp [dictUpdate]
    · simp [dictUpdate, h, ih]

/-- A key that is not in the key sequence is not found. -/
theorem dictGet_none_of_not_mem (rooms : Registry) (k : RoomId)
    (h : k ∉ rooms.map Prod.fst) : dictGet rooms k = none := by
  induction rooms with
  | nil => rfl
  | cons p rest ih =>
    obtain ⟨k2, r2⟩ := p
    simp only [List.map_cons, List.mem_cons] at h
    push_neg at h
    have hne : ¬ k2 = k := fun hh => h.1 hh.symm
    simp [dictGet, hne, ih h.2]

/-- Python `del` raises `KeyError` exactly on an absent key. -/
theorem dictDel_absent (rooms : Registry) (k : RoomId)
    (hget : dictGet rooms k = none) : dictDel rooms k = .error "KeyError" := by
  induction rooms with
  | nil => rfl
  | cons p rest ih =>
    obtain ⟨k2, r2⟩ := p
    by_cases h : k2 = k
    · simp [dictGet, h] at hget
    · simp only [dictGet, if_neg h] at hget
      simp [dictDel, h, ih hget, Except.map]

/-- Python `del` on a present key succeeds, and under unique keys the key is
afterwards absent. -/
theorem dictDel_present (rooms : Registry) (k : RoomId) (r : Room)
    (hget : dictGet rooms k = some r) :
    ∃ rooms2, dictDel rooms k = .ok rooms2 ∧
      ((rooms.map Prod.fst).Nodup → dictGet rooms2 k = none) := by
  induction rooms with
  | nil => simp [dictGet] at hget
  | cons p rest ih =>
    obtain ⟨k2, r2⟩ := p
    by_cases h : k2 = k
    · subst h
      refine ⟨rest, by simp [dictDel], fun hnd => ?_⟩
      simp only [List.map_cons, List.nodup_cons] at hnd
      exact dictGet_none_of_not_mem rest k2 hnd.1
    · simp only [dictGet, if_neg h] at hget
      obtain ⟨rooms2, hdel, hnone⟩ := ih hget
      refine ⟨(k2, r2) :: rooms2, by simp [dictDel, h, hdel, Except.map], fun hnd => ?_⟩
      simp only [List.map_cons, List.nodup_cons] at hnd
      simp [dictGet, h, hnone hnd.2]

/-- The cleanup sweep removes a key all of whose entries are expired. -/
theorem dictGet_cleanup_none (rooms : Registry) (now : Int) (k : RoomId)
    (h : ∀ room, (k, room) ∈ rooms → room.created_at < now - 3600) :
    dictGet (cleanup_old_rooms rooms now) k = none := by
  induction rooms with
  | nil => rfl
  | cons p rest ih =>
    obtain ⟨k2, r⟩ := p
    have hrest : ∀ room, (k, room) ∈ rest → room.created_at < now - 3600 :=
      fun room hm => h room (List.mem_cons_of_mem _ hm)
    by_cases hexp : r.created_at < now - 3600
    · simp only [cleanup_old_rooms, List.filter_cons]
      rw [if_neg (by simp [hexp])]
      exact ih hrest
    · have hk : k2 ≠ k := by
        intro hh
        subst hh
        exact hexp (h r (List.mem_cons_self _ _))
      simp only [cleanup_old_rooms, List.filter_cons]
      rw [if_pos (by simp [hexp])]
      simp only [dictGet, if_neg hk]
      exact ih hrest

/-- The xor of two integers is commutative (two's-complement, as Python). -/
theorem int_xor_comm (a b : Int) : Int.xor a b = Int.xor b a := by
  cases a <;> cases b <;> simp [Int.xor, Nat.xor_comm]

/-- Upper-casing is idempotent on the URL-safe-token alphabet. -/
theorem toUpper_idem_on_alphabet :
    ∀ c ∈ urlsafeAlphabet, Char.toUpper (Char.toUpper c) = Char.toUpper c := by
  decide

/-! ### Concrete scenario states used by the counterexamples and witnesses -/

/-- Registry after `CreateRoom(seed=42, maxSuperpositions=2)` on an empty
registry at time 0, with the retry loop returning id "A". -/
def regAfterCreate : Registry := (create_room [] 0 42 2 ['A']).1

/-- Registry after a further successful `JoinRoom("A", seed=17)`. -/
def regAfterJoin : Registry :=
  match join_room regAfterCreate ['A'] 17 with
  | .ok (r, _) => r
  | .error _ => []

/-- Registry after the host connection (handle 1) bound to room "A". -/
def regAfterHostWs : Registry := (websocket_connect regAfterJoin ['A'] 1).1

/-- Registry after the guest connection (handle 2) also bound. -/
def regAfterGuestWs : Registry := (websocket_connect regAfterHostWs ['A'] 2).1

/-- The fully bound room object that both connection handlers reference. -/
def fullRoom : Room := (dictGet regAfterGuestWs ['A']).getD (Room.make [] 0 0 0)

/-! ### The claims -/

/-- C9: the combined seed is the bitwise xor of `host_seed` and `guest_seed`,
it is defined exactly when `guest_seed` is set, it is a deterministic pure
function of the two seeds, and it is order-independent: two rooms whose seed
pairs are swapped have the same combined seed. -/
theorem C9_combined_seed_xor (room r1 r2 : Room) (a b g : Int) :
    ((Room.game_seed room).isSome = true ↔ (room.guest_seed).isSome = true)
    ∧ (room.guest_seed = some g →
        Room.game_seed room = some (Int.xor room.host_seed g))
    ∧ (r1.host_seed = a → r1.guest_seed = some b → r2.host_seed = b →
        r2.guest_seed = some a → Room.game_seed r1 = Room.game_seed r2) := by
  refine ⟨?_, ?_, ?_⟩
  · cases hg : room.guest_seed <;> simp [Room.game_seed, hg]
  · intro hg
    simp [Room.game_seed, hg]
  · intro h1 h2 h3 h4
    simp [Room.game_seed, h2, h4, h1, h3, int_xor_comm]

/-- Scenario room for the C9 witness: host seed 42, guest seed 17. -/
def swapRoomA : Room :=
  { room_id := ['A'], host_seed := 42, max_superpositions := 2,
    guest_seed := some 17, host_ws := none, guest_ws := none, created_at := 0 }

/-- Scenario room for the C9 witness with the two seeds swapped. -/
def swapRoomB : Room :=
  { room_id := ['B'], host_seed := 17, max_superpositions := 2,
    guest_seed := some 42, host_ws := none, guest_ws := none, created_at := 0 }

/-- Witness for C9: seeds 42 and 17 in either order combine to the same
value (42 xor 17 = 59). -/
theorem C9_witness :
    Room.game_seed swapRoomA = Room.game_seed swapRoomB
    ∧ Room.game_seed swapRoomA = some 59 :=
  ⟨(C9_combined_seed_xor swapRoomA swapRoomA swapRoomB 42 17 17).2.2
    rfl rfl rfl rfl, by decide⟩

/-- C10: an id produced by `generate_room_id` is at most 8 characters and is
a fixed point of upper-casing, so the case-insensitive lookups of `join_room`
and the websocket endpoint find a freshly created room when handed the
returned identifier verbatim. -/
theorem C10_room_id_upper_fixed_point
    (token : List Char) (htok : ∀ c ∈ token, c ∈ urlsafeAlphabet)
    (rooms : Registry) (now seed sup seed2 : Int) (ws : Nat) :
    (generate_room_id token).length ≤ 8
    ∧ upperId (generate_room_id token) = generate_room_id token
    ∧ (join_room (create_room rooms now seed sup (generate_room_id token)).1
        (generate_room_id token) seed2).isOk = true
    ∧ (websocket_connect (create_room rooms now seed sup (generate_room_id token)).1
        (generate_room_id token) ws).2.accepted = true := by
  have hfix : upperId (generate_room_id token) = generate_room_id token := by
    unfold upperId generate_room_id
    rw [List.map_map]
    apply List.map_congr_left
    intro c hc
    exact toUpper_idem_on_alphabet c (htok c (List.take_subset _ _ hc))
  have hget : dictGet (create_room rooms now seed sup (generate_room_id token)).1
      (upperId (generate_room_id token)) =
      some (Room.make (generate_room_id token) seed (max 1 (min 5 sup)) now) := by
    rw [hfix]
    simp only [create_room]
    exact dictGet_dictSet_self _ _ _
  refine ⟨?_, hfix, ?_, ?_⟩
  · simp only [generate_room_id, List.length_map, List.length_take]
    omega
  · simp [join_room, hget, Room.is_full, Room.make, Room.game_seed,
      Except.isOk, Except.toBool]
  · simp [websocket_connect, hget, Room.make]

/-- Witness for C10 at the token "abc-xy12" (create on the empty registry at
time 0, seed 5, requested branch bound 2, then join with seed 9 and a
connection with handle 3). -/
theorem C10_witness :
    (generate_room_id "abc-xy12".toList).length ≤ 8
    ∧ upperId (generate_room_id "abc-xy12".toList) = generate_room_id "abc-xy12".toList
    ∧ (join_room (create_room [] 0 5 2 (generate_room_id "abc-xy12".toList)).1
        (generate_room_id "abc-xy12".toList) 9).isOk = true
    ∧ (websocket_connect (create_room [] 0 5 2 (generate_room_id "abc-xy12".toList)).1
        (generate_room_id "abc-xy12".toList) 3).2.accepted = true :=
  C10_room_id_upper_fixed_point "abc-xy12".toList (by decide) [] 0 5 2 9 3

/-- C1: counterexample — after `CreateRoom` and one successful `JoinRoom`
(which recorded guest seed 17), a second `JoinRoom` on the same room
succeeds instead of failing with RoomFull: `join_room` tests `is_full`,
which looks at the bound connection slots, not at whether a guest seed is
already recorded. -/
theorem C1_counterexample :
    (join_room regAfterCreate ['A'] 17).isOk = true
    ∧ (dictGet regAfterJoin ['A']).map Room.guest_seed = some (some 17)
    ∧ (join_room regAfterJoin ['A'] 99).isOk = true := by
  refine ⟨by decide, by decide, by decide⟩

/-- C1 (amended): `JoinRoom` fails with RoomFull exactly when both of the
room's connection slots are bound (`is_full`); otherwise — even when a guest
seed is already recorded — it succeeds, recording (possibly overwriting) the
guest seed and returning the combined seed and branch limit; in particular
after `CreateRoom` (no connections bound yet) every `JoinRoom` with the
returned identifier succeeds. -/
theorem C1_join_room_full_iff_both_slots_bound
    (rooms : Registry) (rid : RoomId) (seed : Int) (room : Room)
    (hget : dictGet rooms (upperId rid) = some room) :
    (join_room rooms rid seed = .error ApiError.roomFull ↔ room.is_full = true)
    ∧ (room.is_full = false →
        join_room rooms rid seed =
          .ok (dictUpdate rooms (upperId rid) { room with guest_seed := some seed },
                 { room_id := room.room_id, player_color := "black",
                   game_seed := Int.xor room.host_seed seed,
                   max_superpositions := room.max_superpositions }))
    ∧ (∀ rooms0 now0 seed0 sup0 rid0, upperId rid0 = rid0 →
        (join_room (create_room rooms0 now0 seed0 sup0 rid0).1 rid0 seed).isOk
          = true) := by
  refine ⟨?_, ?_, ?_⟩
  · cases hf : room.is_full with
    | true => simp [join_room, hget, hf]
    | false => simp [join_room, hget, hf]
  · intro hf
    simp [join_room, hget, hf, Room.game_seed]
  · intro rooms0 now0 seed0 sup0 rid0 hup
    have hget0 : dictGet (create_room rooms0 now0 seed0 sup0 rid0).1
        (upperId rid0) =
        some (Room.make rid0 seed0 (max 1 (min 5 sup0)) now0) := by
      rw [hup]
      simp only [create_room]
      exact dictGet_dictSet_self _ _ _
    simp [join_room, hget0, Room.is_full, Room.make, Room.game_seed,
      Except.isOk, Except.toBool]

/-- Witness for C1 on the concrete room "A" created with seed 42: the
RoomFull outcome is equivalent to fullness of the stored room (which has no
bound connections, so a join succeeds there). -/
theorem C1_witness :
    dictGet regAfterCreate (upperId ['A']) = some (Room.make ['A'] 42 2 0)
    ∧ (join_room regAfterCreate ['A'] 7 = .error ApiError.roomFull
        ↔ (Room.make ['A'] 42 2 0).is_full = true) :=
  ⟨by decide,
   (C1_join_room_full_iff_both_slots_bound regAfterCreate ['A'] 7
     (Room.make ['A'] 42 2 0) (by decide)).1⟩

/-- C2: evaluation at the failing input — with host (handle 1) and guest
(handle 2) both bound in room "A", the host's disconnect unbinds its slot
before calling `get_other_ws` on the disconnecting handle, which therefore
matches neither slot and yields `None`: the send list is empty, so no
`peer_disconnected` ever reaches the still-bound guest, contradicting the
code's own "Notify other peer" comment (main.py line 233). -/
theorem C2_disconnect_notifies_nobody :
    fullRoom.host_ws = some 1
    ∧ fullRoom.guest_ws = some 2
    ∧ websocket_disconnect regAfterGuestWs ['A'] fullRoom 1 =
        .ok ([(['A'], { fullRoom with host_ws := none })], [])
    ∧ Room.get_other_ws { fullRoom with host_ws := none } 1 = none := by
  refine ⟨by decide, by decide, by rfl, by decide⟩

/-- C3: counterexample — room "A" was created at time 0 and is more than one
hour old at time 7200, yet `join_room` and the websocket endpoint (which run
no expiry sweep; only `create_room` does) still find it and succeed. -/
theorem C3_counterexample :
    (∀ p ∈ regAfterCreate, p.2.created_at < 7200 - 3600)
    ∧ (join_room regAfterCreate ['A'] 5).isOk = true
    ∧ (websocket_connect regAfterCreate ['A'] 9).2.accepted = true := by
  refine ⟨by decide, by decide, by decide⟩

/-- C3 (amended): the 1-hour expiry sweep runs only at the start of
`create_room`; after any `create_room` call at time `now`, an identifier all
of whose registry entries were created more than an hour before `now` is
absent (even if the room was never fully bound), provided it is not the
identifier just allocated.  Lookups by `join_room` or by a new duplex
connection do not themselves trigger expiry. -/
theorem C3_expiry_only_on_create
    (rooms : Registry) (now seed sup : Int) (rid newId : RoomId)
    (hexp : ∀ p ∈ rooms, p.1 = rid → p.2.created_at < now - 3600)
    (hne : newId ≠ rid) :
    dictGet (create_room rooms now seed sup newId).1 rid = none := by
  simp only [create_room]
  rw [dictGet_dictSet_ne _ _ _ _ hne]
  exact dictGet_cleanup_none rooms now rid
    (fun room hm => hexp (rid, room) hm rfl)

/-- Witness for C3: the room created at time 0 is swept when a fresh room
"C" is created at time 7200. -/
theorem C3_witness :
    dictGet (create_room regAfterCreate 7200 1 2 ['C']).1 ['A'] = none :=
  C3_expiry_only_on_create regAfterCreate 7200 1 2 ['A'] ['C']
    (by decide) (by decide)

/-- Scenario room for C4: its handler still references it, but its id was
already removed from the registry (as the expiry sweep does to rooms with
live connections). -/
def staleRoom : Room :=
  { room_id := ['A'], host_seed := 1, max_superpositions := 2,
    guest_seed := none, host_ws := some 7, guest_ws := none, created_at := 0 }

/-- C4: counterexample — deleting room "A" when the registry no longer
contains it is not a no-op: the disconnect path reaches `del rooms[room_id]`
(both slots unbound after the disconnect) and raises `KeyError`. -/
theorem C4_counterexample :
    dictGet ([] : Registry) ['A'] = none
    ∧ websocket_disconnect [] ['A'] staleRoom 7 = .error "KeyError" := by
  refine ⟨rfl, by rfl⟩

/-- C4 (amended): room deletion in the disconnect path is not idempotent —
when the last bound connection of a room disconnects, `del rooms[room_id]`
succeeds if the id is still present but raises `KeyError` if the room was
already removed from the registry (for example by the expiry sweep). -/
theorem C4_delete_raises_when_absent
    (rooms : Registry) (rid : RoomId) (room : Room) (ws : Nat) :
    (∀ r0, dictGet rooms rid = some r0 → room.host_ws = some ws →
      room.guest_ws = none →
      (websocket_disconnect rooms rid room ws).isOk = true)
    ∧ (dictGet rooms rid = none → room.host_ws = some ws →
       room.guest_ws = none →
        websocket_disconnect rooms rid room ws = .error "KeyError") := by
  constructor
  · intro r0 hr0 hh hg
    have hupd : dictGet (dictUpdate rooms rid
        { room with host_ws := none, guest_ws := none }) rid =
        some { room with host_ws := none, guest_ws := none } :=
      dictGet_dictUpdate_self _ _ _ _ hr0
    obtain ⟨rooms2, hdel, _⟩ := dictDel_present _ _ _ hupd
    simp [websocket_disconnect, hh, hg, hdel, Room.get_other_ws, Except.map,
      Except.isOk, Except.toBool]
  · intro habs hh hg
    have hupd : dictUpdate rooms rid
        { room with host_ws := none, guest_ws := none } = rooms :=
      dictUpdate_absent _ _ _ habs
    simp [websocket_disconnect, hh, hg, hupd, dictDel_absent _ _ habs,
      Room.get_other_ws, Except.map]

/-- Witness for C4: with room "A" still registered the disconnect path
succeeds; `staleRoom` and `C4_counterexample` show the absent case. -/
theorem C4_witness :
    (websocket_disconnect [(['A'], staleRoom)] ['A'] staleRoom 7).isOk
      = true :=
  (C4_delete_raises_when_absent [(['A'], staleRoom)] ['A'] staleRoom 7).1
    staleRoom (by decide) (by decide) (by decide)

/-- C5: counterexample — both duplex connections were opened without any
`JoinRoom`, so when the guest connection (handle 2) binds while the host
(handle 1) is bound, the pushed `peer_joined` carries `game_seed = none`:
guest binding does not imply a completed join request, and the combined
seed need not be defined at that moment. -/
theorem C5_counterexample :
    (websocket_connect (websocket_connect regAfterCreate ['A'] 1).1
        ['A'] 2).2.sends =
      [(1, ServerMsg.peer_joined none), (2, ServerMsg.connected "guest" none)]
    ∧ Room.game_seed ((dictGet (websocket_connect regAfterCreate ['A'] 1).1
        ['A']).getD (Room.make [] 0 0 0)) = none := by
  refine ⟨by decide, by decide⟩

/-- C5 (amended): whenever a duplex connection binds to the guest slot while
a host connection is bound, the server immediately (before the guest's own
`connected` confirmation) pushes a `peer_joined` notification to the host
carrying the room's current combined seed — which may still be undefined,
since guest binding does not require a prior join request. -/
theorem C5_peer_joined_on_guest_bind
    (rooms : Registry) (rid0 : RoomId) (ws hw : Nat) (room : Room)
    (hget : dictGet rooms (upperId rid0) = some room)
    (hh : room.host_ws = some hw) (hg : room.guest_ws = none) :
    (websocket_connect rooms rid0 ws).2.role = some "guest"
    ∧ (websocket_connect rooms rid0 ws).2.sends =
        [(hw, ServerMsg.peer_joined (Room.game_seed room)),
         (ws, ServerMsg.connected "guest" (Room.game_seed room))] := by
  constructor
  · simp [websocket_connect, hget, hh, hg]
  · simp [websocket_connect, hget, hh, hg, Room.game_seed]

/-- Witness for C5 on the room with recorded guest seed 17: the host
(handle 1) is sent `peer_joined` with the combined seed 42 xor 17 = 59. -/
theorem C5_witness :
    (websocket_connect regAfterHostWs ['A'] 2).2.role = some "guest"
    ∧ (websocket_connect regAfterHostWs ['A'] 2).2.sends =
        [(1, ServerMsg.peer_joined (Room.game_seed
            ((dictGet regAfterHostWs ['A']).getD (Room.make [] 0 0 0)))),
         (2, ServerMsg.connected "guest" (Room.game_seed
            ((dictGet regAfterHostWs ['A']).getD (Room.make [] 0 0 0))))] :=
  C5_peer_joined_on_guest_bind regAfterHostWs ['A'] 2 1
    ((dictGet regAfterHostWs ['A']).getD (Room.make [] 0 0 0))
    (by decide) (by decide) (by decide)

/-- C6: connection admission is first-available-wins with distinct close
codes: a connection to an unknown id is closed with code 4004 without being
accepted; otherwise the connection is accepted and binds the host slot if
that is unbound, else the guest slot if that is unbound, else it is closed
with the distinct code 4001 — so two sequential connections bind host then
guest and a third is rejected. -/
theorem C6_admission_first_available_wins
    (rooms : Registry) (rid0 : RoomId) (ws : Nat) :
    (dictGet rooms (upperId rid0) = none →
      websocket_connect rooms rid0 ws =
        (rooms, { accepted := false, closeCode := some 4004, role := none, sends := [] }))
    ∧ (∀ room, dictGet rooms (upperId rid0) = some room →
        (room.host_ws = none →
          websocket_connect rooms rid0 ws =
            (dictUpdate rooms (upperId rid0) { room with host_ws := some ws },
              { accepted := true, closeCode := none, role := some "host", sends := [(ws, ServerMsg.connected "host" (Room.game_seed room))] }))
        ∧ (∀ hw, room.host_ws = some hw → room.guest_ws = none →
            websocket_connect rooms rid0 ws =
              (dictUpdate rooms (upperId rid0) { room with guest_ws := some ws },
                { accepted := true, closeCode := none, role := some "guest", sends := [(hw, ServerMsg.peer_joined (Room.game_seed room)), (ws, ServerMsg.connected "guest" (Room.game_seed room))] }))
        ∧ (room.is_full = true →
            websocket_connect rooms rid0 ws =
              (rooms, { accepted := true, closeCode := some 4001, role := none, sends := [] }))) := by
  refine ⟨?_, ?_⟩
  · intro hnone
    simp [websocket_connect, hnone]
  · intro room hget
    refine ⟨?_, ?_, ?_⟩
    · intro hh
      simp [websocket_connect, hget, hh, Room.game_seed]
    · intro hw hh hg
      simp [websocket_connect, hget, hh, hg, Room.game_seed]
    · intro hfull
      rw [Room.is_full, Bool.and_eq_true] at hfull
      obtain ⟨hw, hh⟩ := Option.isSome_iff_exists.mp hfull.1
      obtain ⟨gw, hg⟩ := Option.isSome_iff_exists.mp hfull.2
      simp [websocket_connect, hget, hh, hg]

/-- Witness for C6: a third connection (handle 3) to the fully bound room
"A" is rejected with close code 4001 and no state change. -/
theorem C6_witness :
    websocket_connect regAfterGuestWs ['A'] 3 =
      (regAfterGuestWs, { accepted := true, closeCode := some 4001, role := none, sends := [] }) :=
  (((C6_admission_first_available_wins regAfterGuestWs ['A'] 3).2 fullRoom
      (by decide)).2.2) (by decide)

/-- C7: while relaying, an inbound message from a bound connection is
forwarded verbatim to the other slot's connection when that slot is bound —
and only to it, never echoed to the sender — and is silently dropped (empty
send list, no reply to the sender) when the other slot is unbound. -/
theorem C7_relay_forwarding
    (room : Room) (h g w : Nat) (d : String) :
    (room.host_ws = some h → room.guest_ws = some g → h ≠ g →
      relay_step room h d = [(g, ServerMsg.relayed d)]
      ∧ relay_step room g d = [(h, ServerMsg.relayed d)]
      ∧ (∀ q ∈ relay_step room h d, q.1 ≠ h)
      ∧ (∀ q ∈ relay_step room g d, q.1 ≠ g))
    ∧ (room.host_ws = some w → room.guest_ws = none →
        relay_step room w d = [])
    ∧ (room.guest_ws = some w → room.host_ws = none →
        relay_step room w d = []) := by
  refine ⟨?_, ?_, ?_⟩
  · intro hh hg hne
    refine ⟨?_, ?_, ?_, ?_⟩
    · simp [relay_step, Room.get_other_ws, hh, hg]
    · simp [relay_step, Room.get_other_ws, hh, hg, hne]
    · intro q hq
      simp [relay_step, Room.get_other_ws, hh, hg] at hq
      simp [hq]
      exact Ne.symm hne
    · intro q hq
      simp [relay_step, Room.get_other_ws, hh, hg, hne] at hq
      simp [hq]
      exact hne
  · intro hh hg
    simp [relay_step, Room.get_other_ws, hh, hg]
  · intro hg hh
    simp [relay_step, Room.get_other_ws, hh, hg]

/-- Witness for C7 on the fully bound room "A" (host handle 1, guest handle
2): a host message goes only to the guest and a guest message only to the
host. -/
theorem C7_witness :
    relay_step fullRoom 1 "offer" = [(2, ServerMsg.relayed "offer")]
    ∧ relay_step fullRoom 2 "answer" = [(1, ServerMsg.relayed "answer")] :=
  ⟨((C7_relay_forwarding fullRoom 1 2 1 "offer").1
      (by decide) (by decide) (by decide)).1,
   ((C7_relay_forwarding fullRoom 1 2 1 "answer").1
      (by decide) (by decide) (by decide)).2.1⟩

/-- C8: after a disconnect the room is deleted from the registry exactly
when both slots are then unbound — while the other slot remains bound the
room stays registered (with the disconnected slot unbound), and once both
are unbound the room is removed and no longer findable by `join_room` or by
new connection attempts. -/
theorem C8_room_deleted_iff_both_slots_unbound
    (rooms : Registry) (rid : RoomId) (room : Room) (ws : Nat)
    (hget : dictGet rooms rid = some room)
    (hnd : (rooms.map Prod.fst).Nodup) :
    (∀ g, room.host_ws = some ws → room.guest_ws = some g →
      websocket_disconnect rooms rid room ws =
        .ok (dictUpdate rooms rid { room with host_ws := none }, []))
    ∧ (room.host_ws = some ws → room.guest_ws = none →
        ∃ rooms2, websocket_disconnect rooms rid room ws = .ok (rooms2, [])
          ∧ dictGet rooms2 rid = none
          ∧ (∀ rid1 seed, upperId rid1 = rid →
              join_room rooms2 rid1 seed = .error ApiError.notFound)
          ∧ (∀ rid1 ws2, upperId rid1 = rid →
              (websocket_connect rooms2 rid1 ws2).2 =
                { accepted := false, closeCode := some 4004, role := none, sends := [] }))
    ∧ (∀ h2, room.host_ws = some h2 → h2 ≠ ws → room.guest_ws = some ws →
      websocket_disconnect rooms rid room ws =
        .ok (dictUpdate rooms rid { room with guest_ws := none }, []))
    ∧ (room.host_ws = none → room.guest_ws = some ws →
        ∃ rooms2, websocket_disconnect rooms rid room ws = .ok (rooms2, [])
          ∧ dictGet rooms2 rid = none
          ∧ (∀ rid1 seed, upperId rid1 = rid →
              join_room rooms2 rid1 seed = .error ApiError.notFound)
          ∧ (∀ rid1 ws2, upperId rid1 = rid →
              (websocket_connect rooms2 rid1 ws2).2 =
                { accepted := false, closeCode := some 4004, role := none, sends := [] })) := by
  refine ⟨?_, ?_, ?_, ?_⟩
  · intro g hh hg
    by_cases hgw : g = ws
    · subst hgw
      simp [websocket_disconnect, hh, hg, Room.get_other_ws]
    · simp [websocket_disconnect, hh, hg, Room.get_other_ws, hgw]
  · intro hh hg
    have hupd : dictGet (dictUpdate rooms rid
        { room with host_ws := none, guest_ws := none }) rid =
        some { room with host_ws := none, guest_ws := none } :=
      dictGet_dictUpdate_self _ _ _ _ hget
    obtain ⟨rooms2, hdel, hnone⟩ := dictDel_present _ _ _ hupd
    have hnd2 : ((dictUpdate rooms rid
        { room with host_ws := none, guest_ws := none }).map Prod.fst).Nodup := by
      rw [map_fst_dictUpdate]
      exact hnd
    have habs : dictGet rooms2 rid = none := hnone hnd2
    refine ⟨rooms2, ?_, habs, ?_, ?_⟩
    · simp [websocket_disconnect, hh, hg, hdel, Room.get_other_ws, Except.map]
    · intro rid1 seed hrid
      simp [join_room, hrid, habs]
    · intro rid1 ws2 hrid
      simp [websocket_connect, hrid, habs]
  · intro h2 hh hne hg
    simp [websocket_disconnect, hh, hg, Room.get_other_ws, hne]
  · intro hh hg
    have hupd : dictGet (dictUpdate rooms rid
        { room with host_ws := none, guest_ws := none }) rid =
        some { room with host_ws := none, guest_ws := none } :=
      dictGet_dictUpdate_self _ _ _ _ hget
    obtain ⟨rooms2, hdel, hnone⟩ := dictDel_present _ _ _ hupd
    have hnd2 : ((dictUpdate rooms rid
        { room with host_ws := none, guest_ws := none }).map Prod.fst).Nodup := by
      rw [map_fst_dictUpdate]
      exact hnd
    have habs : dictGet rooms2 rid = none := hnone hnd2
    refine ⟨rooms2, ?_, habs, ?_, ?_⟩
    · simp [websocket_disconnect, hh, hg, hdel, Room.get_other_ws, Except.map]
    · intro rid1 seed hrid
      simp [join_room, hrid, habs]
    · intro rid1 ws2 hrid
      simp [websocket_connect, hrid, habs]

/-- Witness for C8: the sole bound connection (handle 7) of the registered
room "A" disconnects; afterwards the id is gone and neither `join_room` nor
a new connection finds it. -/
theorem C8_witness :
    ∃ rooms2, websocket_disconnect [(['A'], staleRoom)] ['A'] staleRoom 7 =
        .ok (rooms2, [])
      ∧ dictGet rooms2 ['A'] = none
      ∧ (∀ rid1 seed, upperId rid1 = ['A'] →
          join_room rooms2 rid1 seed = .error ApiError.notFound)
      ∧ (∀ rid1 ws2, upperId rid1 = ['A'] →
          (websocket_connect rooms2 rid1 ws2).2 =
            { accepted := false, closeCode := some 4004, role := none, sends := [] }) :=
  (C8_room_deleted_iff_both_slots_unbound [(['A'], staleRoom)] ['A'] staleRoom 7
    (by decide) (by decide)).2.1 (by decide) (by decide)

end QC
